import Mathlib

/-!
Verification development for the bricsauthenticator repository.

The definitions below shallowly embed the Python modules
`bricsauthenticator/spawner_options_form.py` and `bricsauthenticator/auth.py`:
Python values appearing in the `projects` JWT claim are modelled by the
inductive type `PyVal`, Python dicts by ordered association lists, fallible
Python code by `Except`, and the relevant pieces of the Python standard
library (`shlex.quote`, `re.fullmatch` on the concrete patterns used,
`datetime.strptime` with the format `%H:%M:%S`, and `json.loads`) by
executable Lean functions.
-/

/-- A Python value, as far as the handler code needs to distinguish shapes:
`None`, booleans, numbers, strings, lists, and string-keyed dicts (ordered
association lists, mirroring insertion-ordered Python dicts). -/
inductive PyVal where
  | pynone
  | pybool (b : Bool)
  | pynum (q : ℚ)
  | pystr (s : String)
  | pylist (elems : List PyVal)
  | pydict (entries : List (String × PyVal))

/-- Exceptions the embedded `_auth_state_from_projects` code can raise:
Python `KeyError` from a missing dict key and `TypeError` from subscripting
or iterating a value of the wrong type. -/
inductive PyErr where
  | keyError (key : String)
  | typeError
deriving DecidableEq, Repr

/-- Lookup in an ordered association list, as Python `d[k]`/`d.get(k)` does
for a dict with string keys. -/
def pyLookup (d : List (String × PyVal)) (k : String) : Option PyVal :=
  match d with
  | [] => Option.none
  | kv :: rest => if kv.1 = k then some kv.2 else pyLookup rest k

/-- Python `d.get(k)`: a missing key yields `None`. -/
def pyGet (d : List (String × PyVal)) (k : String) : PyVal :=
  (pyLookup d k).getD PyVal.pynone

/-- Python dict assignment `d[k] = v`: replace the value in place if the key
exists, otherwise append the new binding at the end. -/
def dictAssign (d : List (String × PyVal)) (k : String) (v : PyVal) :
    List (String × PyVal) :=
  match d with
  | [] => [(k, v)]
  | kv :: rest => if kv.1 = k then (k, v) :: rest else kv :: dictAssign rest k v

/-- Python subscripting `v[k]` with a string key: only dicts succeed;
a dict without the key raises `KeyError`, any other value raises
`TypeError`. -/
def pySubscript (v : PyVal) (k : String) : Except PyErr PyVal :=
  match v with
  | PyVal.pydict entries =>
    match pyLookup entries k with
    | some w => Except.ok w
    | Option.none => Except.error (PyErr.keyError k)
  | _ => Except.error PyErr.typeError

/-- Python iteration `for x in v`: lists yield their elements, strings their
characters, dicts their keys; other values raise `TypeError`. -/
def pyIter (v : PyVal) : Except PyErr (List PyVal) :=
  match v with
  | PyVal.pylist xs => Except.ok xs
  | PyVal.pystr s => Except.ok (s.data.map (fun c => PyVal.pystr (String.singleton c)))
  | PyVal.pydict entries => Except.ok (entries.map (fun kv => PyVal.pystr kv.1))
  | _ => Except.error PyErr.typeError

/-- Python `v == s` where `s` is a string: true exactly when `v` is an equal
string; values of other types compare unequal without raising. -/
def pyEqStr (v : PyVal) (s : String) : Bool :=
  match v with
  | PyVal.pystr t => t = s
  | _ => false

/-- Python truthiness of a value, as used by `if not username:`. -/
def pyTruthy : PyVal → Bool
  | PyVal.pynone => false
  | PyVal.pybool b => b
  | PyVal.pynum q => decide (q ≠ 0)
  | PyVal.pystr s => decide (s ≠ "")
  | PyVal.pylist xs => !xs.isEmpty
  | PyVal.pydict xs => !xs.isEmpty

/-! ## Embedding of `spawner_options_form.py` -/

/-- Characters that `shlex.quote` leaves unquoted: the ASCII word characters
together with at-sign, percent, plus, equals, colon, comma, dot, slash and
hyphen (the complement of the `_find_unsafe` pattern in the CPython `shlex`
module). -/
def isShlexSafe (c : Char) : Bool :=
  ('a' ≤ c && c ≤ 'z') || ('A' ≤ c && c ≤ 'Z') || ('0' ≤ c && c ≤ '9') ||
  c = '_' || c = '@' || c = '%' || c = '+' || c = '=' || c = ':' ||
  c = ',' || c = '.' || c = '/' || c = '-'

/-- The replacement `s.replace(chr(39), chr(39) ++ quote-escape)` performed by
`shlex.quote`: every single-quote character is replaced by the five-character
sequence close-quote, double-quoted quote, reopen-quote. -/
def quoteEscaped (s : String) : String :=
  String.join (s.data.map (fun c =>
    if c = '\x27' then "\x27\"\x27\"\x27" else String.singleton c))

/-- Function `defuse` from `spawner_options_form.py`: `shlex.quote` applied to the
input string. -/
def defuse (input_to_defuse : String) : String :=
  if input_to_defuse = "" then "\x27\x27"
  else if input_to_defuse.data.all isShlexSafe then input_to_defuse
  else "\x27" ++ quoteEscaped input_to_defuse ++ "\x27"

def isAsciiDigit (c : Char) : Bool := '0' ≤ c && c ≤ '9'

def isAsciiLower (c : Char) : Bool := 'a' ≤ c && c ≤ 'z'

def isAsciiUpper (c : Char) : Bool := 'A' ≤ c && c ≤ 'Z'

/-- Matching `re.fullmatch` against the pattern used for `brics_project` in
`validate_form_data`: a lowercase letter followed by one or more characters
drawn from lowercase letters, digits, hyphen and underscore. Note that the
character class contains no dot. -/
def bricsProjectMatch (s : String) : Bool :=
  match s.data with
  | [] => false
  | c :: rest =>
    isAsciiLower c && !rest.isEmpty &&
      rest.all (fun d => isAsciiLower d || isAsciiDigit d || d = '-' || d = '_')

/-- Matching `re.fullmatch` against the single-digit pattern used for `ngpus`. -/
def ngpusMatch (s : String) : Bool :=
  match s.data with
  | [c] => isAsciiDigit c
  | _ => false

/-- Matching `re.fullmatch` against the pattern used for `partition` and
`reservation`: any run (possibly empty) of letters, digits, hyphen and
underscore. -/
def optFieldMatch (s : String) : Bool :=
  s.data.all (fun c => isAsciiLower c || isAsciiUpper c || isAsciiDigit c || c = '-' || c = '_')

def dVal (c : Char) : Nat := c.toNat - 48

/-- The `%H` directive of `datetime.strptime`: the alternation
`2[0-3] | [0-1] digit | digit`, tried in that order. -/
def parseHour24 : List Char → Option (Nat × List Char)
  | c1 :: c2 :: rest =>
    if c1 = '2' && '0' ≤ c2 && c2 ≤ '3' then some (20 + dVal c2, rest)
    else if (c1 = '0' || c1 = '1') && isAsciiDigit c2 then
      some (10 * dVal c1 + dVal c2, rest)
    else if isAsciiDigit c1 then some (dVal c1, c2 :: rest)
    else Option.none
  | [c1] => if isAsciiDigit c1 then some (dVal c1, []) else Option.none
  | [] => Option.none

/-- The `%M` directive of `datetime.strptime`: `[0-5] digit | digit`. -/
def parseMin60 : List Char → Option (Nat × List Char)
  | c1 :: c2 :: rest =>
    if ('0' ≤ c1 && c1 ≤ '5') && isAsciiDigit c2 then
      some (10 * dVal c1 + dVal c2, rest)
    else if isAsciiDigit c1 then some (dVal c1, c2 :: rest)
    else Option.none
  | [c1] => if isAsciiDigit c1 then some (dVal c1, []) else Option.none
  | [] => Option.none

/-- The `%S` directive of `datetime.strptime`: `6[0-1] | [0-5] digit | digit`. -/
def parseSec61 : List Char → Option (Nat × List Char)
  | c1 :: c2 :: rest =>
    if c1 = '6' && (c2 = '0' || c2 = '1') then some (60 + dVal c2, rest)
    else if ('0' ≤ c1 && c1 ≤ '5') && isAsciiDigit c2 then
      some (10 * dVal c1 + dVal c2, rest)
    else if isAsciiDigit c1 then some (dVal c1, c2 :: rest)
    else Option.none
  | [c1] => if isAsciiDigit c1 then some (dVal c1, []) else Option.none
  | [] => Option.none

/-- Whether `datetime.strptime(s, time-of-day format)` succeeds: hour, colon, minute,
colon, second per the directive patterns, the whole string consumed, and the
parsed second at most 59 (the `datetime` constructor rejects the leap-second
values 60 and 61 that the `%S` directive itself admits). -/
def strptimeHMS (s : String) : Bool :=
  match parseHour24 s.data with
  | Option.none => false
  | some (_, r1) =>
    match r1 with
    | ':' :: r1b =>
      match parseMin60 r1b with
      | Option.none => false
      | some (_, r2) =>
        match r2 with
        | ':' :: r2b =>
          match parseSec61 r2b with
          | Option.none => false
          | some (sec, r3) => r3.isEmpty && decide (sec ≤ 59)
        | _ => false
    | _ => false

/-- The exceptions form validation can raise: `ValueError` with a reason
string, `KeyError` from `form_data[k]` on a missing key, and `IndexError`
from `[0]` on an empty value list. -/
inductive FormErr where
  | valueError (msg : String)
  | keyError (key : String)
  | indexError
deriving DecidableEq, Repr

/-- Lookup of a key in the submitted form data (a dict of lists of strings). -/
def fdGet? : List (String × List String) → String → Option (List String)
  | [], _ => Option.none
  | kv :: rest, k => if kv.1 = k then some kv.2 else fdGet? rest k

/-- Python `form_data.get(k, default)`. -/
def fdGetD (fd : List (String × List String)) (k : String) (dflt : List String) :
    List String :=
  (fdGet? fd k).getD dflt

/-- Python `form_data[k]`: `KeyError` when the key is missing. -/
def fdIndex (fd : List (String × List String)) (k : String) :
    Except FormErr (List String) :=
  match fdGet? fd k with
  | some v => Except.ok v
  | Option.none => Except.error (FormErr.keyError k)

/-- Python `xs[0]`: `IndexError` on an empty list. -/
def listFirst (xs : List String) : Except FormErr String :=
  match xs with
  | [] => Except.error FormErr.indexError
  | x :: _ => Except.ok x

/-- The set of form keys accepted by `validate_form_data`. -/
def allowedFormKeys : List String :=
  ["brics_project", "runtime", "ngpus", "partition", "reservation"]

/-- Function `validate_form_data` from `spawner_options_form.py`, checks performed in
source order: unknown-keys subset check, then `brics_project` (lookup, first
element, pattern, membership), `runtime` (`strptime`), `ngpus` (single
digit), and the optional `partition`/`reservation` fields (default empty
list-of-empty-string, empty first value normalised to `None`). The returned
options dict is modelled as an ordered association list with `Option String`
values, `Option.none` standing for Python `None`. -/
def validate_form_data (form_data : List (String × List String))
    (valid_projects : List String) :
    Except FormErr (List (String × Option String)) :=
  if !(form_data.all (fun kv => allowedFormKeys.contains kv.1)) then
    Except.error (FormErr.valueError "unknown form data keys")
  else
    match fdIndex form_data "brics_project" with
    | Except.error e => Except.error e
    | Except.ok bpList =>
      match listFirst bpList with
      | Except.error e => Except.error e
      | Except.ok brics_project =>
        if !(bricsProjectMatch brics_project) then
          Except.error (FormErr.valueError "brics_project not valid")
        else if !(valid_projects.contains brics_project) then
          Except.error (FormErr.valueError "unknown brics_project")
        else
          match fdIndex form_data "runtime" with
          | Except.error e => Except.error e
          | Except.ok rtList =>
            match listFirst rtList with
            | Except.error e => Except.error e
            | Except.ok runtime =>
              if !(strptimeHMS runtime) then
                Except.error (FormErr.valueError "runtime not valid")
              else
                match fdIndex form_data "ngpus" with
                | Except.error e => Except.error e
                | Except.ok ngList =>
                  match listFirst ngList with
                  | Except.error e => Except.error e
                  | Except.ok ngpus =>
                    if !(ngpusMatch ngpus) then
                      Except.error (FormErr.valueError "ngpus not valid")
                    else
                      match listFirst (fdGetD form_data "partition" [""]) with
                      | Except.error e => Except.error e
                      | Except.ok partition =>
                        if partition ≠ "" && !(optFieldMatch partition) then
                          Except.error (FormErr.valueError "partition not valid")
                        else
                          match listFirst (fdGetD form_data "reservation" [""]) with
                          | Except.error e => Except.error e
                          | Except.ok reservation =>
                            if reservation ≠ "" && !(optFieldMatch reservation) then
                              Except.error (FormErr.valueError "reservation not valid")
                            else
                              Except.ok
                                [("brics_project", some brics_project),
                                 ("runtime", some runtime),
                                 ("ngpus", some ngpus),
                                 ("partition",
                                  if partition = "" then Option.none else some partition),
                                 ("reservation",
                                  if reservation = "" then Option.none else some reservation)]

/-- Function `interpret_form_data` from `spawner_options_form.py`: validate, defuse
every non-`None` value, re-insert `partition`/`reservation` as `None` when
dropped, and wrap any `ValueError` with the fixed prefix. `KeyError` and
`IndexError` are not caught and propagate unchanged. -/
def interpret_form_data (form_data : List (String × List String))
    (valid_projects : List String) :
    Except FormErr (List (String × Option String)) :=
  match validate_form_data form_data valid_projects with
  | Except.error (FormErr.valueError msg) =>
    Except.error (FormErr.valueError ("Invalid spawner options input: " ++ msg))
  | Except.error e => Except.error e
  | Except.ok validated_options =>
    let defused_options := validated_options.filterMap (fun kv =>
      match kv.2 with
      | some v => some (kv.1, some (defuse v))
      | Option.none => Option.none)
    let defused_options :=
      if !(defused_options.any (fun kv => kv.1 = "partition")) then
        defused_options ++ [("partition", Option.none)]
      else defused_options
    let defused_options :=
      if !(defused_options.any (fun kv => kv.1 = "reservation")) then
        defused_options ++ [("reservation", Option.none)]
      else defused_options
    Except.ok defused_options

example : interpret_form_data
    [("brics_project", ["p1.portal"]), ("runtime", ["01:00:00"]), ("ngpus", ["1"])]
    ["p1.portal"] =
    Except.error (FormErr.valueError "Invalid spawner options input: brics_project not valid") := by
  rfl

example : interpret_form_data
    [("brics_project", ["valid_project"]), ("runtime", ["01:00:00"]), ("ngpus", ["1"])]
    ["valid_project"] =
    Except.ok
      [("brics_project", some "valid_project"), ("runtime", some "01:00:00"),
       ("ngpus", some "1"), ("partition", Option.none), ("reservation", Option.none)] := by
  rfl

example : defuse "" = "\x27\x27" := by rfl

example : defuse "a b" = "\x27a b\x27" := by rfl

example : defuse "abc123_-./" = "abc123_-./" := by rfl

example : defuse "brics; ls -l /" = "\x27brics; ls -l /\x27" := by rfl

example : strptimeHMS "23:59:59" = true := by rfl

example : strptimeHMS "25:00:00" = false := by rfl

/-! ## A model of `json.loads`

`_normalize_projects` feeds string-valued `projects` claims through
`json.loads`. The recursive-descent functions below accept the JSON value
grammar the CPython decoder accepts (objects, arrays, strings with escapes,
numbers, `true`, `false`, `null`, with JSON whitespace), building `PyVal`
results; duplicate object keys keep the last binding, as Python dicts do. -/

def skipJsonWs : List Char → List Char
  | c :: cs => if c = ' ' || c = '\t' || c = '\n' || c = '\r' then skipJsonWs cs else c :: cs
  | [] => []

def hexVal (c : Char) : Option Nat :=
  if '0' ≤ c && c ≤ '9' then some (c.toNat - 48)
  else if 'a' ≤ c && c ≤ 'f' then some (c.toNat - 87)
  else if 'A' ≤ c && c ≤ 'F' then some (c.toNat - 55)
  else Option.none

/-- Parse the body of a JSON string after the opening double quote, returning
the decoded string and the characters after the closing double quote. -/
def parseJStr : List Char → Option (String × List Char)
  | [] => Option.none
  | c :: cs =>
    if c = '"' then some ("", cs)
    else if c = '\\' then
      match cs with
      | [] => Option.none
      | e :: cs2 =>
        if e = 'u' then
          match cs2 with
          | a :: b :: c3 :: d :: cs3 =>
            match hexVal a, hexVal b, hexVal c3, hexVal d with
            | some va, some vb, some vc, some vd =>
              (parseJStr cs3).map (fun p =>
                (String.singleton (Char.ofNat (((va * 16 + vb) * 16 + vc) * 16 + vd)) ++ p.1, p.2))
            | _, _, _, _ => Option.none
          | _ => Option.none
        else
          match
            (if e = '"' then some '"'
             else if e = '\\' then some '\\'
             else if e = '/' then some '/'
             else if e = 'b' then some (Char.ofNat 8)
             else if e = 'f' then some (Char.ofNat 12)
             else if e = 'n' then some '\n'
             else if e = 'r' then some '\r'
             else if e = 't' then some '\t'
             else Option.none) with
          | some ch => (parseJStr cs2).map (fun p => (String.singleton ch ++ p.1, p.2))
          | Option.none => Option.none
    else if c.toNat < 32 then Option.none
    else (parseJStr cs).map (fun p => (String.singleton c ++ p.1, p.2))

/-- Greedily take the leading run of decimal digits. -/
def takeDigits : List Char → (List Char × List Char)
  | [] => ([], [])
  | c :: cs =>
    if isAsciiDigit c then
      let p := takeDigits cs
      (c :: p.1, p.2)
    else ([], c :: cs)

def natOfDigits (ds : List Char) : Nat :=
  ds.foldl (fun a c => 10 * a + dVal c) 0

/-- Parse the optional fraction part of a JSON number onto an integer part. -/
def parseJFrac (ipart : ℚ) : List Char → Option (ℚ × List Char)
  | '.' :: rest =>
    let p := takeDigits rest
    if p.1.isEmpty then Option.none
    else some (ipart + (natOfDigits p.1 : ℚ) / ((10 : ℚ) ^ p.1.length), p.2)
  | cs => some (ipart, cs)

/-- Parse the optional exponent part of a JSON number onto a mantissa. -/
def parseJExp (m : ℚ) : List Char → Option (ℚ × List Char) := fun cs =>
  match cs with
  | e :: rest =>
    if e = 'e' || e = 'E' then
      let signed : Bool × List Char :=
        match rest with
        | '+' :: r => (false, r)
        | '-' :: r => (true, r)
        | r => (false, r)
      let p := takeDigits signed.2
      if p.1.isEmpty then Option.none
      else
        let k := natOfDigits p.1
        some ((if signed.1 then m / (10 : ℚ) ^ k else m * (10 : ℚ) ^ k), p.2)
    else some (m, cs)
  | [] => some (m, [])

/-- Parse a JSON number: optional minus sign, an integer part with no leading
zero, optional fraction and exponent. -/
def parseJNum (cs : List Char) : Option (ℚ × List Char) :=
  let signed : Bool × List Char :=
    match cs with
    | '-' :: rest => (true, rest)
    | _ => (false, cs)
  match signed.2 with
  | [] => Option.none
  | c :: rest =>
    let ipart? : Option (Nat × List Char) :=
      if c = '0' then some (0, rest)
      else if isAsciiDigit c then
        let p := takeDigits rest
        some (natOfDigits (c :: p.1), p.2)
      else Option.none
    match ipart? with
    | Option.none => Option.none
    | some (ip, rest2) =>
      match parseJFrac (ip : ℚ) rest2 with
      | Option.none => Option.none
      | some (m, rest3) =>
        match parseJExp m rest3 with
        | Option.none => Option.none
        | some (q, rest4) => some ((if signed.1 then -q else q), rest4)

mutual

/-- Parse a JSON value (leading whitespace allowed). The fuel argument only
bounds the recursion; `jsonLoads` supplies more fuel than any input can
consume. -/
def parseJVal : Nat → List Char → Option (PyVal × List Char)
  | 0, _ => Option.none
  | Nat.succ fuel, cs =>
    match skipJsonWs cs with
    | [] => Option.none
    | c :: rest =>
      if c = '\x7b' then parseJObjBody fuel [] (skipJsonWs rest) true
      else if c = '[' then parseJArrBody fuel [] (skipJsonWs rest) true
      else if c = '"' then (parseJStr rest).map (fun p => (PyVal.pystr p.1, p.2))
      else if c = 't' then
        match rest with
        | 'r' :: 'u' :: 'e' :: r => some (PyVal.pybool true, r)
        | _ => Option.none
      else if c = 'f' then
        match rest with
        | 'a' :: 'l' :: 's' :: 'e' :: r => some (PyVal.pybool false, r)
        | _ => Option.none
      else if c = 'n' then
        match rest with
        | 'u' :: 'l' :: 'l' :: r => some (PyVal.pynone, r)
        | _ => Option.none
      else (parseJNum (c :: rest)).map (fun p => (PyVal.pynum p.1, p.2))

/-- Parse the members of a JSON object after the opening brace (whitespace
already skipped); `first` records whether no member has been parsed yet, so
that a closing brace is only accepted immediately after the opening brace or
after a complete member, never after a comma. -/
def parseJObjBody : Nat → List (String × PyVal) → List Char → Bool → Option (PyVal × List Char)
  | 0, _, _, _ => Option.none
  | Nat.succ fuel, acc, cs, first =>
    match cs with
    | '\x7d' :: r => if first then some (PyVal.pydict acc, r) else Option.none
    | '"' :: r =>
      match parseJStr r with
      | Option.none => Option.none
      | some (key, r2) =>
        match skipJsonWs r2 with
        | ':' :: r3 =>
          match parseJVal fuel r3 with
          | Option.none => Option.none
          | some (v, r4) =>
            match skipJsonWs r4 with
            | ',' :: r5 => parseJObjBody fuel (dictAssign acc key v) (skipJsonWs r5) false
            | '\x7d' :: r5 => some (PyVal.pydict (dictAssign acc key v), r5)
            | _ => Option.none
        | _ => Option.none
    | _ => Option.none

/-- Parse the elements of a JSON array after the opening bracket, with the
same `first` convention as for objects. The accumulator is kept reversed. -/
def parseJArrBody : Nat → List PyVal → List Char → Bool → Option (PyVal × List Char)
  | 0, _, _, _ => Option.none
  | Nat.succ fuel, acc, cs, first =>
    match cs with
    | ']' :: r => if first then some (PyVal.pylist acc.reverse, r) else Option.none
    | _ =>
      match parseJVal fuel cs with
      | Option.none => Option.none
      | some (v, r2) =>
        match skipJsonWs r2 with
        | ',' :: r3 => parseJArrBody fuel (v :: acc) (skipJsonWs r3) false
        | ']' :: r3 => some (PyVal.pylist (v :: acc).reverse, r3)
        | _ => Option.none

end

/-- Model of `json.loads`: parse one JSON value and require only whitespace after it;
any failure is a decode error (the handler code only distinguishes success
from failure, never the message). -/
def jsonLoads (s : String) : Except String PyVal :=
  match parseJVal (2 * s.length + 2) s.data with
  | Option.none => Except.error "Expecting value"
  | some (v, rest) =>
    if (skipJsonWs rest).isEmpty then Except.ok v else Except.error "Extra data"

example : jsonLoads "\x7b\x7d" = Except.ok (PyVal.pydict []) := by rfl

example : jsonLoads "\x7binvalid_json" = Except.error "Expecting value" := by rfl

example : jsonLoads "[true, null]" = Except.ok (PyVal.pylist [PyVal.pybool true, PyVal.pynone]) := by
  rfl

example : jsonLoads " \x7b\"a\": \"b\"\x7d " = Except.ok (PyVal.pydict [("a", PyVal.pystr "b")]) := by
  rfl

/-! ## Embedding of `auth.py` -/

/-- Method `BricsLoginHandler._normalize_projects`: read the `projects` claim with
`.get` (absent becomes `None`), return the empty dict for `None`, JSON-decode
string values (decode failure yields the empty dict), and return the empty
dict whenever the resulting value is not a dict. -/
def normalizeProjects (decoded_token : List (String × PyVal)) : List (String × PyVal) :=
  match pyGet decoded_token "projects" with
  | PyVal.pynone => []
  | PyVal.pystr s =>
    match jsonLoads s with
    | Except.error _ => []
    | Except.ok v =>
      match v with
      | PyVal.pydict d => d
      | _ => []
  | PyVal.pydict d => d
  | _ => []

/-- The inner loop of `BricsLoginHandler._auth_state_from_projects`: scan the
resources of one project in order; on the first resource whose `name` equals
`platform`, build the auth-state entry (evaluating `project_data` subscripted
at `name` and then the resource subscripted at `username`, in source order)
and stop. Missing keys and non-dict values raise as in Python. -/
def scanResources (project_data : PyVal) (platform : String) :
    List PyVal → Except PyErr (Option PyVal)
  | [] => Except.ok Option.none
  | resource :: rest =>
    match pySubscript resource "name" with
    | Except.error e => Except.error e
    | Except.ok nameVal =>
      if pyEqStr nameVal platform then
        match pySubscript project_data "name" with
        | Except.error e => Except.error e
        | Except.ok pname =>
          match pySubscript resource "username" with
          | Except.error e => Except.error e
          | Except.ok uname =>
            Except.ok (some (PyVal.pydict [("name", pname), ("username", uname)]))
      else scanResources project_data platform rest

/-- The outer loop of `_auth_state_from_projects`, carrying the `auth_state`
dict built so far. -/
def authStateLoop (platform : String) (acc : List (String × PyVal)) :
    List (String × PyVal) → Except PyErr (List (String × PyVal))
  | [] => Except.ok acc
  | (project_id, project_data) :: rest =>
    match pySubscript project_data "resources" with
    | Except.error e => Except.error e
    | Except.ok resVal =>
      match pyIter resVal with
      | Except.error e => Except.error e
      | Except.ok resources =>
        match scanResources project_data platform resources with
        | Except.error e => Except.error e
        | Except.ok Option.none => authStateLoop platform acc rest
        | Except.ok (some entry) =>
          authStateLoop platform (dictAssign acc project_id entry) rest

/-- Method `BricsLoginHandler._auth_state_from_projects`. -/
def authStateFromProjects (projects : List (String × PyVal)) (platform : String) :
    Except PyErr (List (String × PyVal)) :=
  authStateLoop platform [] projects

/-- Failures of the login flow after token decoding: a Tornado `HTTPError`
with a status code and reason, or an uncaught Python exception escaping
`_auth_state_from_projects`. -/
inductive LoginErr where
  | httpError (status : Nat) (msg : String)
  | pyError (e : PyErr)
deriving DecidableEq, Repr

/-- The tail of `BricsLoginHandler.get` after `_decode_jwt` has returned:
normalize the projects claim, reject a missing or falsy `short_name` claim
with a 401, derive the auth state, reject an empty auth state with a 403,
and otherwise hand the username and auth state to `auth_to_user`. -/
def loginAfterDecode (decoded_token : List (String × PyVal)) (platform : String) :
    Except LoginErr (PyVal × List (String × PyVal)) :=
  let projects := normalizeProjects decoded_token
  let username := pyGet decoded_token "short_name"
  if !(pyTruthy username) then
    Except.error (LoginErr.httpError 401 "Invalid token: Missing short_name claim")
  else
    match authStateFromProjects projects platform with
    | Except.error e => Except.error (LoginErr.pyError e)
    | Except.ok auth_state =>
      if !(decide (auth_state.length > 0)) then
        Except.error (LoginErr.httpError 403 "No projects with valid platform")
      else Except.ok (username, auth_state)

/-! ## Typed project records

The data model of well-formed `projects` claims, used to state the
authorization-filter claim: each project has a human name and an ordered
resource list, each resource a name and a username. -/

structure Resource where
  name : String
  username : String
deriving DecidableEq, Repr

structure ProjectRecord where
  name : String
  resources : List Resource
deriving DecidableEq, Repr

/-- The `PyVal` encoding of a resource, as it appears in the JWT claim. -/
def resourceToPy (r : Resource) : PyVal :=
  PyVal.pydict [("name", PyVal.pystr r.name), ("username", PyVal.pystr r.username)]

/-- The `PyVal` encoding of a project record. -/
def projectRecordToPy (p : ProjectRecord) : PyVal :=
  PyVal.pydict
    [("name", PyVal.pystr p.name),
     ("resources", PyVal.pylist (p.resources.map resourceToPy))]

/-- The authorization filter as the specification words it: for each project
keep the first resource whose name equals the platform, pairing the project
name with that resource username; projects without a match contribute
nothing. -/
def deriveAuthorizationState (projects : List (String × ProjectRecord)) (platform : String) :
    List (String × PyVal) :=
  projects.filterMap (fun p =>
    (p.2.resources.find? (fun r => r.name = platform)).map (fun r =>
      (p.1, PyVal.pydict
        [("name", PyVal.pystr p.2.name), ("username", PyVal.pystr r.username)])))

/-! ## Token time validation, modelled from the spec

Modelled from the spec: the Token Verifier time validation with configurable
leeway (spec section 4.3). The version of `BricsLoginHandler._decode_jwt`
under `src` calls `jwt.decode` without a leeway argument, while the
repository test suite configures the handler with a `jwt_leeway` of integer
or fractional seconds and checks the asymmetric boundary semantics below;
the leeway-aware verifier itself is therefore missing from `src` and is
modelled here from the spec bullets. Times and leeway are rationals so that
fractional leeway values are covered. -/

/-- Modelled from the spec: the not-yet-valid check fails exactly when
`iat > now + leeway` (boundary inclusive on the success side). -/
def validateIatWithLeeway (iat now leeway : ℚ) : Except String Unit :=
  if iat > now + leeway then Except.error "The token is not yet valid (iat)"
  else Except.ok ()

/-- Modelled from the spec: the expiry check fails exactly when
`exp ≤ now - leeway` (boundary exclusive on the success side). -/
def validateExpWithLeeway (expiry now leeway : ℚ) : Except String Unit :=
  if expiry ≤ now - leeway then Except.error "Signature has expired"
  else Except.ok ()

/-- Modelled from the spec: the combined time validation of a token that has
already passed signature, required-claim, audience and issuer checks; the
`iat` check runs before the `exp` check, as in the PyJWT claim validation
order. -/
def verifyTokenTimes (iat expiry now leeway : ℚ) : Except String Unit :=
  match validateIatWithLeeway iat now leeway with
  | Except.error e => Except.error e
  | Except.ok _ => validateExpWithLeeway expiry now leeway

example : normalizeProjects [("projects", PyVal.pystr "\x7binvalid_json")] = [] := by rfl

example : normalizeProjects [] = [] := by rfl

example :
    authStateFromProjects [("p", PyVal.pydict [])] "plat" =
      Except.error (PyErr.keyError "resources") := by rfl

example :
    loginAfterDecode [("short_name", PyVal.pystr "user"), ("projects", PyVal.pydict [])]
      "plat" =
      Except.error (LoginErr.httpError 403 "No projects with valid platform") := by rfl

example :
    loginAfterDecode [("short_name", PyVal.pystr "")] "plat" =
      Except.error (LoginErr.httpError 401 "Invalid token: Missing short_name claim") := by rfl

/-! ## Claims -/

/-- Python dict assignment on a fresh key appends the binding at the end. -/
theorem dictAssign_of_not_mem (d : List (String × PyVal)) (k : String) (v : PyVal)
    (h : k ∉ d.map Prod.fst) : dictAssign d k v = d ++ [(k, v)] := by
  induction d with
  | nil => rfl
  | cons kv rest ih =>
    simp only [List.map_cons, List.mem_cons] at h
    push_neg at h
    simp [dictAssign, Ne.symm h.1, ih h.2]

/-- On an encoded resource list, the inner scan of the filter returns
exactly the entry built from the first resource whose name equals the
platform, and nothing when no resource matches. -/
theorem scanResources_encoded (p : ProjectRecord) (platform : String) (rs : List Resource) :
    scanResources (projectRecordToPy p) platform (rs.map resourceToPy) =
      Except.ok ((rs.find? (fun r => r.name = platform)).map (fun r =>
        PyVal.pydict [("name", PyVal.pystr p.name), ("username", PyVal.pystr r.username)])) := by
  induction rs with
  | nil => rfl
  | cons r rest ih =>
    by_cases h : r.name = platform
    · simp [scanResources, resourceToPy, pySubscript, pyLookup, pyEqStr, h,
        projectRecordToPy, List.find?]
    · simp [scanResources, resourceToPy, pySubscript, pyLookup, pyEqStr, h,
        List.find?, ih]

/-- The outer loop of the filter on an encoded projects mapping with fresh
keys appends exactly the specification-side entries to the accumulator. -/
theorem authStateLoop_encoded (platform : String)
    (projects : List (String × ProjectRecord)) (acc : List (String × PyVal))
    (hnd : (acc.map Prod.fst ++ projects.map Prod.fst).Nodup) :
    authStateLoop platform acc (projects.map (fun p => (p.1, projectRecordToPy p.2))) =
      Except.ok (acc ++ deriveAuthorizationState projects platform) := by
  induction projects generalizing acc with
  | nil => simp [authStateLoop, deriveAuthorizationState]
  | cons p rest ih =>
    obtain ⟨pid, rec⟩ := p
    have hsub : pySubscript (projectRecordToPy rec) "resources" =
        Except.ok (PyVal.pylist (rec.resources.map resourceToPy)) := by
      simp [projectRecordToPy, pySubscript, pyLookup]
    have hscan := scanResources_encoded rec platform rec.resources
    rw [List.map_cons]
    cases hf : rec.resources.find? (fun r => r.name = platform) with
    | none =>
      have hnd' : (acc.map Prod.fst ++ rest.map Prod.fst).Nodup := by
        simp only [List.map_cons] at hnd
        exact List.Nodup.sublist
          (List.Sublist.append_left (List.sublist_cons_self _ _) _) hnd
      simp [authStateLoop, hsub, pyIter, hscan, hf, ih acc hnd',
        deriveAuthorizationState]
    | some r =>
      have hmem : pid ∉ acc.map Prod.fst := by
        simp only [List.map_cons] at hnd
        have hd := (List.nodup_append.mp hnd).2.2
        intro hc
        exact hd hc (List.mem_cons_self _ _)
      have hnd' : ((acc ++ [(pid, PyVal.pydict
          [("name", PyVal.pystr rec.name),
           ("username", PyVal.pystr r.username)])]).map Prod.fst ++
          rest.map Prod.fst).Nodup := by
        simp only [List.map_append, List.map_cons, List.map_nil] at hnd ⊢
        simpa [List.append_assoc] using hnd
      have := ih (acc ++ [(pid, PyVal.pydict
        [("name", PyVal.pystr rec.name), ("username", PyVal.pystr r.username)])]) hnd'
      simp [authStateLoop, hsub, pyIter, hscan, hf,
        dictAssign_of_not_mem acc pid _ hmem, this, deriveAuthorizationState]

/-- Claim C1: the claim states that `validate_form_data` accepts a
`brics_project` that may contain a single dot, and that the concrete form
with `brics_project` `p1.portal` against that valid project yields the
validated options. Evaluating the embedded code at that input shows the
opposite: the character class of the pattern in the source contains no dot,
so the form is rejected with `brics_project not valid` (and the wrapped
message from `interpret_form_data`), although the test suite of the module
expects dotted project identifiers to validate. -/
theorem C1_dotted_project_rejected_eval :
    bricsProjectMatch "p1.portal" = false ∧
    validate_form_data
        [("brics_project", ["p1.portal"]), ("runtime", ["01:00:00"]), ("ngpus", ["1"])]
        ["p1.portal"] =
      Except.error (FormErr.valueError "brics_project not valid") ∧
    interpret_form_data
        [("brics_project", ["p1.portal"]), ("runtime", ["01:00:00"]), ("ngpus", ["1"])]
        ["p1.portal"] =
      Except.error (FormErr.valueError "Invalid spawner options input: brics_project not valid") :=
  ⟨rfl, rfl, rfl⟩

/-- Claim C3: on a well-formed projects mapping with distinct project
identifiers, the authorization filter computes exactly the
specification-side derivation: per project, the entry built from the first
resource (in original order) whose name equals the platform, scanning
stopping there (so later same-platform resources are ignored and each
project contributes at most one entry), and projects without a matching
resource contributing nothing. -/
theorem C3_auth_filter_first_match
    (projects : List (String × ProjectRecord)) (platform : String)
    (hnd : (projects.map Prod.fst).Nodup) :
    authStateFromProjects (projects.map (fun p => (p.1, projectRecordToPy p.2))) platform =
      Except.ok (deriveAuthorizationState projects platform) := by
  have h := authStateLoop_encoded platform projects [] (by simpa using hnd)
  simpa [authStateFromProjects] using h

/-- Witness for C3: the spec §8 scenario extended with a duplicate
same-platform resource (the second one is ignored) and a project without a
match (it contributes nothing). -/
theorem C3_auth_filter_first_match_witness :
    authStateFromProjects
        ([("project1.portal",
           (⟨"Project 1",
             [⟨"plat.shared", "u.p1"⟩, ⟨"plat.shared", "second.p1"⟩,
              ⟨"other.shared", "x.p1"⟩]⟩ : ProjectRecord)),
          ("project2.portal",
           (⟨"Project 2", [⟨"other.shared", "u.p2"⟩]⟩ : ProjectRecord))].map
          (fun p => (p.1, projectRecordToPy p.2)))
        "plat.shared" =
      Except.ok
        [("project1.portal",
          PyVal.pydict
            [("name", PyVal.pystr "Project 1"), ("username", PyVal.pystr "u.p1")])] :=
  (C3_auth_filter_first_match
      [("project1.portal",
        (⟨"Project 1",
          [⟨"plat.shared", "u.p1"⟩, ⟨"plat.shared", "second.p1"⟩,
           ⟨"other.shared", "x.p1"⟩]⟩ : ProjectRecord)),
       ("project2.portal",
        (⟨"Project 2", [⟨"other.shared", "u.p2"⟩]⟩ : ProjectRecord))]
      "plat.shared" (by decide)).trans (by rfl)

/-- Claim C7: `defuse` applies POSIX-shell quoting: the empty string becomes
the two-character quoted-empty token, a non-empty string of safe characters
passes through unchanged, any other string is wrapped in single quotes with
each embedded single quote escaped by close-quote, escaped quote, reopen;
with the three concrete scenario cases. -/
theorem C7_defuse_posix_quoting :
    defuse "" = "\x27\x27" ∧
    (∀ s : String, s ≠ "" → s.data.all isShlexSafe = true → defuse s = s) ∧
    (∀ s : String, s ≠ "" → s.data.all isShlexSafe = false →
      defuse s = "\x27" ++ quoteEscaped s ++ "\x27") ∧
    defuse "a b" = "\x27a b\x27" ∧
    defuse "abc123_-./" = "abc123_-./" := by
  refine ⟨rfl, ?_, ?_, rfl, rfl⟩ <;> intro s hne hall <;> simp [defuse, hne, hall]

/-- Witness for C7 at concrete inputs: a safe string passes through and an
unsafe one is quoted. -/
theorem C7_defuse_posix_quoting_witness :
    defuse "brics" = "brics" ∧ defuse "a b" = "\x27a b\x27" :=
  ⟨C7_defuse_posix_quoting.2.1 "brics" (by decide) (by decide),
   C7_defuse_posix_quoting.2.2.2.1⟩

/-- Claim C2: asymmetric leeway semantics of token time validation, for
rational (hence also fractional) leeway: the not-yet-valid check fails
exactly when `iat > now + leeway` (inclusive success boundary at
`iat = now + leeway`) and the expiry check fails exactly when
`exp ≤ now - leeway` (success requires strictly `exp > now - leeway`);
combined validation succeeds exactly when both hold. -/
theorem C2_leeway_time_validation :
    ∀ iat expiry now leeway : ℚ,
    (validateIatWithLeeway iat now leeway =
        Except.error "The token is not yet valid (iat)" ↔ iat > now + leeway) ∧
    (validateIatWithLeeway iat now leeway = Except.ok () ↔ iat ≤ now + leeway) ∧
    (validateExpWithLeeway expiry now leeway =
        Except.error "Signature has expired" ↔ expiry ≤ now - leeway) ∧
    (validateExpWithLeeway expiry now leeway = Except.ok () ↔ now - leeway < expiry) ∧
    (verifyTokenTimes iat expiry now leeway = Except.ok () ↔
        (iat ≤ now + leeway ∧ now - leeway < expiry)) := by
  intro iat expiry now leeway
  refine ⟨?_, ?_, ?_, ?_, ?_⟩
  · unfold validateIatWithLeeway
    split_ifs with h
    · exact iff_of_true rfl h
    · exact iff_of_false (by simp) h
  · unfold validateIatWithLeeway
    split_ifs with h
    · exact iff_of_false (by simp) (not_le.mpr h)
    · exact iff_of_true rfl (not_lt.mp h)
  · unfold validateExpWithLeeway
    split_ifs with h
    · exact iff_of_true rfl h
    · exact iff_of_false (by simp) h
  · unfold validateExpWithLeeway
    split_ifs with h
    · exact iff_of_false (by simp) (not_lt.mpr h)
    · exact iff_of_true rfl (not_le.mp h)
  · unfold verifyTokenTimes validateIatWithLeeway validateExpWithLeeway
    split_ifs with h1 h2
    · exact iff_of_false (by simp) (fun hc => absurd hc.1 (not_le.mpr h1))
    · exact iff_of_false (by simp) (fun hc => absurd hc.2 (not_lt.mpr h2))
    · exact iff_of_true rfl ⟨not_lt.mp h1, not_le.mp h2⟩

/-- Witness for C2 at concrete rational inputs with fractional leeway. -/
theorem C2_leeway_time_validation_witness :
    validateIatWithLeeway 8 5 (7 / 2) = Except.ok () ∧
    validateExpWithLeeway 2 5 (7 / 2) = Except.ok () :=
  ⟨(C2_leeway_time_validation 8 0 5 (7 / 2)).2.1.mpr (by norm_num),
   (C2_leeway_time_validation 0 2 5 (7 / 2)).2.2.2.1.mpr (by norm_num)⟩

/-- Claim C8: behaviour of the optional `partition` and `reservation`
fields when the required fields are valid: an absent field or an
empty-string first value normalizes to null and appears as null in the
result of `interpret_form_data` (never defused, never omitted); a non-empty
first value failing the optional-field pattern raises the field-specific
error, wrapped by `interpret_form_data`. -/
theorem C8_optional_fields (bp rt ng : String) (vp : List String) (part res : String)
    (hbp : bricsProjectMatch bp = true) (hvp : vp.contains bp = true)
    (hrt : strptimeHMS rt = true) (hng : ngpusMatch ng = true) :
    (validate_form_data [("brics_project", [bp]), ("runtime", [rt]), ("ngpus", [ng])] vp =
      Except.ok
        [("brics_project", some bp), ("runtime", some rt), ("ngpus", some ng),
         ("partition", Option.none), ("reservation", Option.none)]) ∧
    (interpret_form_data [("brics_project", [bp]), ("runtime", [rt]), ("ngpus", [ng])] vp =
      Except.ok
        [("brics_project", some (defuse bp)), ("runtime", some (defuse rt)),
         ("ngpus", some (defuse ng)), ("partition", Option.none),
         ("reservation", Option.none)]) ∧
    (interpret_form_data
        [("brics_project", [bp]), ("runtime", [rt]), ("ngpus", [ng]),
         ("partition", [""]), ("reservation", [""])] vp =
      Except.ok
        [("brics_project", some (defuse bp)), ("runtime", some (defuse rt)),
         ("ngpus", some (defuse ng)), ("partition", Option.none),
         ("reservation", Option.none)]) ∧
    (part ≠ "" → optFieldMatch part = false →
      validate_form_data
          [("brics_project", [bp]), ("runtime", [rt]), ("ngpus", [ng]),
           ("partition", [part])] vp =
        Except.error (FormErr.valueError "partition not valid") ∧
      interpret_form_data
          [("brics_project", [bp]), ("runtime", [rt]), ("ngpus", [ng]),
           ("partition", [part])] vp =
        Except.error
          (FormErr.valueError "Invalid spawner options input: partition not valid")) ∧
    (res ≠ "" → optFieldMatch res = false →
      validate_form_data
          [("brics_project", [bp]), ("runtime", [rt]), ("ngpus", [ng]),
           ("reservation", [res])] vp =
        Except.error (FormErr.valueError "reservation not valid") ∧
      interpret_form_data
          [("brics_project", [bp]), ("runtime", [rt]), ("ngpus", [ng]),
           ("reservation", [res])] vp =
        Except.error
          (FormErr.valueError "Invalid spawner options input: reservation not valid")) := by
  have hm : bp ∈ vp := by simpa using hvp
  refine ⟨?_, ?_, ?_, ?_, ?_⟩
  · simp [validate_form_data, fdIndex, fdGet?, fdGetD, listFirst, allowedFormKeys,
      hbp, hvp, hm, hrt, hng]
  · simp [interpret_form_data, validate_form_data, fdIndex, fdGet?, fdGetD, listFirst,
      allowedFormKeys, hbp, hvp, hm, hrt, hng]
  · simp [interpret_form_data, validate_form_data, fdIndex, fdGet?, fdGetD, listFirst,
      allowedFormKeys, hbp, hvp, hm, hrt, hng]
  · intro hp hpm
    constructor
    · simp [validate_form_data, fdIndex, fdGet?, fdGetD, listFirst, allowedFormKeys,
        hbp, hvp, hm, hrt, hng, hp, hpm]
    · simp [interpret_form_data, validate_form_data, fdIndex, fdGet?, fdGetD, listFirst,
        allowedFormKeys, hbp, hvp, hm, hrt, hng, hp, hpm]
  · intro hr hrm
    constructor
    · simp [validate_form_data, fdIndex, fdGet?, fdGetD, listFirst, allowedFormKeys,
        hbp, hvp, hm, hrt, hng, hr, hrm]
    · simp [interpret_form_data, validate_form_data, fdIndex, fdGet?, fdGetD, listFirst,
        allowedFormKeys, hbp, hvp, hm, hrt, hng, hr, hrm]

/-- Witness for C8 at concrete inputs: the all-required form succeeds with
null optional fields present, and an invalid non-empty partition raises the
wrapped field-specific error. -/
theorem C8_optional_fields_witness :
    interpret_form_data
        [("brics_project", ["valid_project"]), ("runtime", ["01:00:00"]),
         ("ngpus", ["1"])] ["valid_project"] =
      Except.ok
        [("brics_project", some "valid_project"), ("runtime", some "01:00:00"),
         ("ngpus", some "1"), ("partition", Option.none), ("reservation", Option.none)] ∧
    interpret_form_data
        [("brics_project", ["valid_project"]), ("runtime", ["01:00:00"]),
         ("ngpus", ["1"]), ("partition", ["a b"])] ["valid_project"] =
      Except.error
        (FormErr.valueError "Invalid spawner options input: partition not valid") :=
  ⟨((C8_optional_fields "valid_project" "01:00:00" "1" ["valid_project"] "a b" "r"
      (by decide) (by decide) (by decide) (by decide)).2.1).trans (by rfl),
   ((C8_optional_fields "valid_project" "01:00:00" "1" ["valid_project"] "a b" "r"
      (by decide) (by decide) (by decide) (by decide)).2.2.2.1 (by decide) (by decide)).2⟩

/-- Claim C9, counterexample: the claim quantifies over every form lacking a
required key, but a form that lacks `runtime` while carrying a syntactically
invalid `brics_project` raises `ValueError` (wrapped by
`interpret_form_data`), not a `KeyError`, because the fields are validated
in source order. -/
theorem C9_missing_key_counterexample :
    fdGet? [("brics_project", ["x!"]), ("ngpus", ["1"])] "runtime" = Option.none ∧
    validate_form_data [("brics_project", ["x!"]), ("ngpus", ["1"])] ["p"] =
      Except.error (FormErr.valueError "brics_project not valid") ∧
    interpret_form_data [("brics_project", ["x!"]), ("ngpus", ["1"])] ["p"] =
      Except.error
        (FormErr.valueError "Invalid spawner options input: brics_project not valid") :=
  ⟨rfl, rfl, rfl⟩

/-- Claim C9 as amended: the unknown-keys check never rejects missing keys,
and a missing required key raises `KeyError` for that key, propagated
unwrapped by `interpret_form_data` (which catches only `ValueError`),
provided every required field validated earlier in source order is present
and valid: a missing `brics_project` always raises `KeyError`; with a valid
`brics_project`, a missing `runtime` raises `KeyError`; with valid
`brics_project` and `runtime`, a missing `ngpus` raises `KeyError`. -/
theorem C9_missing_required_keys_amended :
    ∀ (fd : List (String × List String)) (vp : List String),
      fd.all (fun kv => allowedFormKeys.contains kv.1) = true →
      (fdGet? fd "brics_project" = Option.none →
        validate_form_data fd vp = Except.error (FormErr.keyError "brics_project") ∧
        interpret_form_data fd vp = Except.error (FormErr.keyError "brics_project")) ∧
      (∀ bps bp, fdGet? fd "brics_project" = some bps → listFirst bps = Except.ok bp →
        bricsProjectMatch bp = true → vp.contains bp = true →
        fdGet? fd "runtime" = Option.none →
        validate_form_data fd vp = Except.error (FormErr.keyError "runtime") ∧
        interpret_form_data fd vp = Except.error (FormErr.keyError "runtime")) ∧
      (∀ bps bp rts rt, fdGet? fd "brics_project" = some bps →
        listFirst bps = Except.ok bp →
        bricsProjectMatch bp = true → vp.contains bp = true →
        fdGet? fd "runtime" = some rts → listFirst rts = Except.ok rt →
        strptimeHMS rt = true →
        fdGet? fd "ngpus" = Option.none →
        validate_form_data fd vp = Except.error (FormErr.keyError "ngpus") ∧
        interpret_form_data fd vp = Except.error (FormErr.keyError "ngpus")) := by
  intro fd vp hall
  refine ⟨?_, ?_, ?_⟩
  · intro h
    constructor
    · unfold validate_form_data
      rw [hall]
      simp [fdIndex, h]
    · unfold interpret_form_data validate_form_data
      rw [hall]
      simp [fdIndex, h]
  · intro bps bp h1 h2 h3 h4 h5
    have hm : bp ∈ vp := by simpa using h4
    constructor
    · unfold validate_form_data
      rw [hall]
      simp [fdIndex, h1, h2, h3, hm, h5]
    · unfold interpret_form_data validate_form_data
      rw [hall]
      simp [fdIndex, h1, h2, h3, hm, h5]
  · intro bps bp rts rt h1 h2 h3 h4 h5 h6 h7 h8
    have hm : bp ∈ vp := by simpa using h4
    constructor
    · unfold validate_form_data
      rw [hall]
      simp [fdIndex, h1, h2, h3, hm, h5, h6, h7, h8]
    · unfold interpret_form_data validate_form_data
      rw [hall]
      simp [fdIndex, h1, h2, h3, hm, h5, h6, h7, h8]

/-- Witness for C9 as amended: a form missing `brics_project` and a form
with a valid `brics_project` but no `runtime`, both propagating `KeyError`
through `interpret_form_data` unwrapped. -/
theorem C9_missing_required_keys_amended_witness :
    interpret_form_data [("runtime", ["01:00:00"])] [] =
      Except.error (FormErr.keyError "brics_project") ∧
    interpret_form_data [("brics_project", ["valid_project"])] ["valid_project"] =
      Except.error (FormErr.keyError "runtime") :=
  ⟨((C9_missing_required_keys_amended [("runtime", ["01:00:00"])] [] (by decide)).1
      rfl).2,
   ((C9_missing_required_keys_amended [("brics_project", ["valid_project"])]
      ["valid_project"] (by decide)).2.1 ["valid_project"] "valid_project" rfl rfl
      (by decide) (by decide) rfl).2⟩

/-- Claim C5: the claims normalizer returns the empty mapping for an absent
or null `projects` claim, JSON-decodes string claims (empty mapping on
decode failure or a non-object decode result), passes object claims through
unchanged, and returns the empty mapping for any other value, never raising
(the embedding is a total function). -/
theorem C5_normalize_projects (tok : List (String × PyVal)) :
    (pyGet tok "projects" = PyVal.pynone → normalizeProjects tok = []) ∧
    (∀ s, pyGet tok "projects" = PyVal.pystr s →
      (∀ e, jsonLoads s = Except.error e → normalizeProjects tok = []) ∧
      (∀ d, jsonLoads s = Except.ok (PyVal.pydict d) → normalizeProjects tok = d) ∧
      (∀ v, jsonLoads s = Except.ok v → (∀ d, v ≠ PyVal.pydict d) →
        normalizeProjects tok = [])) ∧
    (∀ d, pyGet tok "projects" = PyVal.pydict d → normalizeProjects tok = d) ∧
    (∀ v, pyGet tok "projects" = v → v ≠ PyVal.pynone →
      (∀ s, v ≠ PyVal.pystr s) → (∀ d, v ≠ PyVal.pydict d) →
      normalizeProjects tok = []) := by
  refine ⟨?_, ?_, ?_, ?_⟩
  · intro h; unfold normalizeProjects; rw [h]
  · intro s h
    refine ⟨?_, ?_, ?_⟩
    · intro e he; unfold normalizeProjects; rw [h]; simp only []; rw [he]
    · intro d hd; unfold normalizeProjects; rw [h]; simp only []; rw [hd]
    · intro v hv hne; unfold normalizeProjects; rw [h]; simp only []; rw [hv]
      cases v with
      | pydict d => exact absurd rfl (hne d)
      | pynone => rfl
      | pybool b => rfl
      | pynum q => rfl
      | pystr s2 => rfl
      | pylist l => rfl
  · intro d h; unfold normalizeProjects; rw [h]
  · intro v h hn hs hd; unfold normalizeProjects; rw [h]
    cases v with
    | pynone => exact absurd rfl hn
    | pystr s => exact absurd rfl (hs s)
    | pydict d => exact absurd rfl (hd d)
    | pybool b => rfl
    | pynum q => rfl
    | pylist l => rfl

/-- Witness for C5 at the concrete spec scenarios: invalid JSON, a
JSON-encoded array, a JSON-encoded object, a raw object, and a non-object
non-string value. -/
theorem C5_normalize_projects_witness :
    normalizeProjects [("projects", PyVal.pystr "\x7binvalid_json")] = [] ∧
    normalizeProjects [("projects", PyVal.pystr "[true]")] = [] ∧
    normalizeProjects [("projects", PyVal.pystr " \x7b\"a\": \"b\"\x7d ")] =
      [("a", PyVal.pystr "b")] ∧
    normalizeProjects [("projects", PyVal.pydict [("k", PyVal.pynone)])] =
      [("k", PyVal.pynone)] ∧
    normalizeProjects [("projects", PyVal.pylist [])] = [] :=
  ⟨((C5_normalize_projects [("projects", PyVal.pystr "\x7binvalid_json")]).2.1
      "\x7binvalid_json" rfl).1 "Expecting value" rfl,
   ((C5_normalize_projects [("projects", PyVal.pystr "[true]")]).2.1 "[true]" rfl).2.2
     (PyVal.pylist [PyVal.pybool true]) rfl (fun _ h => nomatch h),
   ((C5_normalize_projects [("projects", PyVal.pystr " \x7b\"a\": \"b\"\x7d ")]).2.1
      " \x7b\"a\": \"b\"\x7d " rfl).2.1 [("a", PyVal.pystr "b")] rfl,
   (C5_normalize_projects [("projects", PyVal.pydict [("k", PyVal.pynone)])]).2.2.1
     [("k", PyVal.pynone)] rfl,
   (C5_normalize_projects [("projects", PyVal.pylist [])]).2.2.2 (PyVal.pylist []) rfl
     (fun h => nomatch h) (fun _ h => nomatch h) (fun _ h => nomatch h)⟩

/-- Claim C10: after signature and required-claim checks, a `short_name`
claim that is present but falsy (for example the empty string) makes the
login flow fail with a 401 and the reason `Invalid token: Missing short_name
claim`, because the handler tests truthiness, not presence. -/
theorem C10_falsy_short_name_rejected :
    ∀ (tok : List (String × PyVal)) (platform : String) (v : PyVal),
      pyLookup tok "short_name" = some v → pyTruthy v = false →
      loginAfterDecode tok platform =
        Except.error (LoginErr.httpError 401 "Invalid token: Missing short_name claim") := by
  intro tok platform v hv ht
  simp [loginAfterDecode, pyGet, hv, ht]

/-- Witness for C10: a token whose `short_name` claim is the empty string. -/
theorem C10_falsy_short_name_rejected_witness :
    loginAfterDecode
        [("short_name", PyVal.pystr ""),
         ("projects", PyVal.pydict
           [("p1", PyVal.pydict
             [("name", PyVal.pystr "P1"),
              ("resources", PyVal.pylist
                [PyVal.pydict
                  [("name", PyVal.pystr "plat"), ("username", PyVal.pystr "u.p1")]])])])]
        "plat" =
      Except.error (LoginErr.httpError 401 "Invalid token: Missing short_name claim") :=
  C10_falsy_short_name_rejected _ _ (PyVal.pystr "") rfl rfl

/-- Whether an `Except` computation succeeded. -/
def exceptIsOk {ε α : Type} : Except ε α → Bool
  | Except.ok _ => true
  | Except.error _ => false

/-- Claim C4, counterexample: at a verified token whose derived auth state is
empty, the login flow raises the 403 with the reason string
`No projects with valid platform` (capital N), not the reason
`no projects with valid platform` stated by the claim. -/
theorem C4_403_reason_counterexample :
    loginAfterDecode [("short_name", PyVal.pystr "user"), ("projects", PyVal.pydict [])]
        "plat" =
      Except.error (LoginErr.httpError 403 "No projects with valid platform") ∧
    ¬ (loginAfterDecode [("short_name", PyVal.pystr "user"), ("projects", PyVal.pydict [])]
        "plat" =
      Except.error (LoginErr.httpError 403 "no projects with valid platform")) := by
  refine ⟨rfl, fun h => ?_⟩
  rw [show loginAfterDecode
        [("short_name", PyVal.pystr "user"), ("projects", PyVal.pydict [])] "plat" =
      Except.error (LoginErr.httpError 403 "No projects with valid platform") from rfl] at h
  simp at h

/-- Claim C4 as amended: with a truthy `short_name`, an empty derived auth
state makes the login fail with status 403 and reason
`No projects with valid platform`, and a non-empty auth state makes the flow
succeed (handing username and auth state on) without raising that error. -/
theorem C4_empty_auth_state_403 :
    ∀ (tok : List (String × PyVal)) (platform : String),
      pyTruthy (pyGet tok "short_name") = true →
      (authStateFromProjects (normalizeProjects tok) platform = Except.ok [] →
        loginAfterDecode tok platform =
          Except.error (LoginErr.httpError 403 "No projects with valid platform")) ∧
      (∀ st, authStateFromProjects (normalizeProjects tok) platform = Except.ok st →
        st ≠ [] →
        loginAfterDecode tok platform = Except.ok (pyGet tok "short_name", st)) := by
  intro tok platform ht
  constructor
  · intro ha
    simp [loginAfterDecode, ht, ha]
  · intro st hst hne
    have hlen : 0 < st.length := List.length_pos.mpr hne
    simp [loginAfterDecode, ht, hst, hlen]

/-- Witness for C4 as amended: both branches at concrete tokens. -/
theorem C4_empty_auth_state_403_witness :
    loginAfterDecode [("short_name", PyVal.pystr "user"), ("projects", PyVal.pydict [])]
        "other" =
      Except.error (LoginErr.httpError 403 "No projects with valid platform") ∧
    loginAfterDecode
        [("short_name", PyVal.pystr "u"),
         ("projects", PyVal.pydict
           [("p1.portal", PyVal.pydict
             [("name", PyVal.pystr "P1"),
              ("resources", PyVal.pylist
                [PyVal.pydict
                  [("name", PyVal.pystr "plat.shared"),
                   ("username", PyVal.pystr "u.p1")]])])])]
        "plat.shared" =
      Except.ok (PyVal.pystr "u",
        [("p1.portal",
          PyVal.pydict [("name", PyVal.pystr "P1"), ("username", PyVal.pystr "u.p1")])]) :=
  ⟨(C4_empty_auth_state_403
      [("short_name", PyVal.pystr "user"), ("projects", PyVal.pydict [])] "other" rfl).1 rfl,
   (C4_empty_auth_state_403
      [("short_name", PyVal.pystr "u"),
       ("projects", PyVal.pydict
         [("p1.portal", PyVal.pydict
           [("name", PyVal.pystr "P1"),
            ("resources", PyVal.pylist
              [PyVal.pydict
                [("name", PyVal.pystr "plat.shared"),
                 ("username", PyVal.pystr "u.p1")]])])])]
      "plat.shared" rfl).2
     [("p1.portal",
       PyVal.pydict [("name", PyVal.pystr "P1"), ("username", PyVal.pystr "u.p1")])]
     rfl (fun h => nomatch h)⟩

/-- Claim C6, counterexample: a projects object whose single entry lacks a
`resources` key is not tolerated by the authorization filter; the filter
raises `KeyError` for `resources` instead of contributing no entry. -/
theorem C6_malformed_entry_counterexample :
    authStateFromProjects [("p", PyVal.pydict [])] "plat" =
      Except.error (PyErr.keyError "resources") ∧
    exceptIsOk (authStateFromProjects [("p", PyVal.pydict [])] "plat") = false :=
  ⟨rfl, rfl⟩

/-- The inner scan returns no entry, and no error, when every resource of
the project is an object whose `name` value does not equal the platform,
whatever other keys the resources or the project may be missing. -/
theorem scanResources_no_match (pdata : PyVal) (platform : String) (rs : List PyVal)
    (h : ∀ r ∈ rs, ∃ dr nv, r = PyVal.pydict dr ∧ pyLookup dr "name" = some nv ∧
      pyEqStr nv platform = false) :
    scanResources pdata platform rs = Except.ok Option.none := by
  induction rs with
  | nil => rfl
  | cons r rest ih =>
    obtain ⟨dr, nv, hr, hl, hne⟩ := h r (List.mem_cons_self r rest)
    subst hr
    simp [scanResources, pySubscript, hl, hne,
      ih (fun x hx => h x (List.mem_cons_of_mem _ hx))]

/-- Claim C6 as amended: normalization is total and tolerates malformed
entries (it returns non-dict-shaped member values untouched), but the
authorization filter does not: an entry whose value lacks a `resources` key
makes it raise `KeyError` for `resources`. Malformed entries go unnoticed
only on paths the filter never inspects: projects all of whose resources
are objects with a non-matching `name` contribute nothing and raise nothing,
even when resource `username` keys or the project `name` key are missing. -/
theorem C6_malformed_entries_amended :
    (∀ (pid : String) (entries rest : List (String × PyVal)) (platform : String),
      pyLookup entries "resources" = Option.none →
      authStateFromProjects ((pid, PyVal.pydict entries) :: rest) platform =
        Except.error (PyErr.keyError "resources")) ∧
    (∀ (projects : List (String × PyVal)) (platform : String),
      (∀ p ∈ projects, ∃ d rs, p.2 = PyVal.pydict d ∧
        pyLookup d "resources" = some (PyVal.pylist rs) ∧
        ∀ r ∈ rs, ∃ dr nv, r = PyVal.pydict dr ∧ pyLookup dr "name" = some nv ∧
          pyEqStr nv platform = false) →
      authStateFromProjects projects platform = Except.ok []) := by
  constructor
  · intro pid entries rest platform h
    simp [authStateFromProjects, authStateLoop, pySubscript, h]
  · intro projects platform h
    induction projects with
    | nil => rfl
    | cons p rest ih =>
      obtain ⟨pid, pdata⟩ := p
      obtain ⟨d, rs, hp, hres, hr⟩ := h (pid, pdata) (List.mem_cons_self _ _)
      simp only at hp
      subst hp
      have hrest := ih (fun x hx => h x (List.mem_cons_of_mem _ hx))
      simp [authStateFromProjects, authStateLoop, pySubscript, hres, pyIter,
        scanResources_no_match (PyVal.pydict d) platform rs hr] at hrest ⊢
      exact hrest

/-- Witness for C6 as amended: a dict-valued entry without `resources`
raises, and a project whose only resource has a non-matching name and no
`username` key is tolerated silently. -/
theorem C6_malformed_entries_amended_witness :
    authStateFromProjects
        [("p", PyVal.pydict [("name", PyVal.pystr "P")])] "plat" =
      Except.error (PyErr.keyError "resources") ∧
    authStateFromProjects
        [("q", PyVal.pydict
          [("resources", PyVal.pylist [PyVal.pydict [("name", PyVal.pystr "other")]])])]
        "plat" = Except.ok [] :=
  ⟨C6_malformed_entries_amended.1 "p" [("name", PyVal.pystr "P")] [] "plat" rfl,
   C6_malformed_entries_amended.2
     [("q", PyVal.pydict
       [("resources", PyVal.pylist [PyVal.pydict [("name", PyVal.pystr "other")]])])]
     "plat"
     (by
       intro p hp
       simp only [List.mem_singleton] at hp
       subst hp
       exact ⟨[("resources", PyVal.pylist [PyVal.pydict [("name", PyVal.pystr "other")]])],
         [PyVal.pydict [("name", PyVal.pystr "other")]], rfl, rfl, by
           intro r hr
           simp only [List.mem_singleton] at hr
           subst hr
           exact ⟨[("name", PyVal.pystr "other")], PyVal.pystr "other", rfl, rfl, rfl⟩⟩)⟩
